import Mathlib

/-!
Verification development for the OneEscrow address-handling engine
(`src/handlers/addresses.py`).  The Python module is shallowly embedded:
pure helpers become Lean functions, the network is an explicit environment
record (one field per HTTP response the code can observe), and the
Telegram command handler becomes a state-passing function from the
persisted role/address tables to an outcome plus the new address table.
-/

namespace OneEscrow

/-! ## Chain families and character classes

`AdvancedAddressValidator.PATTERNS` (addresses.py lines 165-179) —
each regex is anchored (`^...$`) and applied with `re.match`, so it is a
full match of the trimmed address string.  We embed each character class
and each pattern as a Boolean function on the list of characters of the
(already stripped) address.
-/

inductive Family
  | BTC | LTC | EVM | TRX | DOGE | XRP | UNKNOWN
deriving DecidableEq, Repr

/-- `[a-km-zA-HJ-NP-Z1-9]` — the base58 body class of the BTC legacy pattern. -/
def isB58Btc (c : Char) : Bool :=
  (decide ('a' ≤ c) && decide (c ≤ 'k')) || (decide ('m' ≤ c) && decide (c ≤ 'z')) ||
  (decide ('A' ≤ c) && decide (c ≤ 'H')) || (decide ('J' ≤ c) && decide (c ≤ 'N')) ||
  (decide ('P' ≤ c) && decide (c ≤ 'Z')) || (decide ('1' ≤ c) && decide (c ≤ '9'))

/-- `[ac-hj-np-z02-9]` — the bech32 body class used by the `bc1`/`ltc1` patterns. -/
def isBech32Body (c : Char) : Bool :=
  (c == 'a') || (decide ('c' ≤ c) && decide (c ≤ 'h')) ||
  (decide ('j' ≤ c) && decide (c ≤ 'n')) || (decide ('p' ≤ c) && decide (c ≤ 'z')) ||
  (c == '0') || (decide ('2' ≤ c) && decide (c ≤ '9'))

/-- `[a-fA-F0-9]` — hex digits of the EVM pattern. -/
def isHexBody (c : Char) : Bool :=
  (decide ('a' ≤ c) && decide (c ≤ 'f')) || (decide ('A' ≤ c) && decide (c ≤ 'F')) ||
  (decide ('0' ≤ c) && decide (c ≤ '9'))

/-- `[0-9a-zA-Z]` — alphanumerics, the body class of the TRX and XRP patterns. -/
def isAlnum (c : Char) : Bool :=
  (decide ('0' ≤ c) && decide (c ≤ '9')) || (decide ('a' ≤ c) && decide (c ≤ 'z')) ||
  (decide ('A' ≤ c) && decide (c ≤ 'Z'))

/-- `[5-9A-HJ-NP-U]` — the second-character class of the DOGE pattern. -/
def isDogeSecond (c : Char) : Bool :=
  (decide ('5' ≤ c) && decide (c ≤ '9')) || (decide ('A' ≤ c) && decide (c ≤ 'H')) ||
  (decide ('J' ≤ c) && decide (c ≤ 'N')) || (decide ('P' ≤ c) && decide (c ≤ 'U'))

/-- `[1-9A-HJ-NP-Za-km-z]` — the body class of the DOGE pattern. -/
def isDogeBody (c : Char) : Bool :=
  (decide ('1' ≤ c) && decide (c ≤ '9')) || (decide ('A' ≤ c) && decide (c ≤ 'H')) ||
  (decide ('J' ≤ c) && decide (c ≤ 'N')) || (decide ('P' ≤ c) && decide (c ≤ 'Z')) ||
  (decide ('a' ≤ c) && decide (c ≤ 'k')) || (decide ('m' ≤ c) && decide (c ≤ 'z'))

/-! ### The six family patterns (PATTERNS dict, lines 166-178) -/

/-- `^[13][a-km-zA-HJ-NP-Z1-9]{25,34}$` -/
def btcLegacy : List Char → Bool
  | c :: rest =>
      (c == '1' || c == '3') && decide (25 ≤ rest.length) && decide (rest.length ≤ 34) &&
        rest.all isB58Btc
  | [] => false

/-- `^bc1[ac-hj-np-z02-9]{11,71}$` -/
def btcBech32 : List Char → Bool
  | c0 :: c1 :: c2 :: rest =>
      (c0 == 'b') && (c1 == 'c') && (c2 == '1') &&
        decide (11 ≤ rest.length) && decide (rest.length ≤ 71) && rest.all isBech32Body
  | _ => false

/-- `^bc1p[ac-hj-np-z02-9]{11,71}$` -/
def btcBech32m : List Char → Bool
  | c0 :: c1 :: c2 :: c3 :: rest =>
      (c0 == 'b') && (c1 == 'c') && (c2 == '1') && (c3 == 'p') &&
        decide (11 ≤ rest.length) && decide (rest.length ≤ 71) && rest.all isBech32Body
  | _ => false

/-- Any of the three BTC patterns (the source loops over `PATTERNS['BTC']`). -/
def btcMatch (cs : List Char) : Bool :=
  btcLegacy cs || btcBech32 cs || btcBech32m cs

/-- `^[LM3][a-km-zA-HJ-NP-Z1-9]{26,33}$` -/
def ltcLegacy : List Char → Bool
  | c :: rest =>
      (c == 'L' || c == 'M' || c == '3') && decide (26 ≤ rest.length) &&
        decide (rest.length ≤ 33) && rest.all isB58Btc
  | [] => false

/-- `^ltc1[ac-hj-np-z02-9]{11,71}$` -/
def ltcBech32 : List Char → Bool
  | c0 :: c1 :: c2 :: c3 :: rest =>
      (c0 == 'l') && (c1 == 't') && (c2 == 'c') && (c3 == '1') &&
        decide (11 ≤ rest.length) && decide (rest.length ≤ 71) && rest.all isBech32Body
  | _ => false

/-- Any of the two LTC patterns. -/
def ltcMatch (cs : List Char) : Bool :=
  ltcLegacy cs || ltcBech32 cs

/-- `^0x[a-fA-F0-9]{40}$` -/
def evmMatch : List Char → Bool
  | c0 :: c1 :: rest =>
      (c0 == '0') && (c1 == 'x') && decide (rest.length = 40) && rest.all isHexBody
  | _ => false

/-- `^T[0-9a-zA-Z]{33}$` -/
def trxMatch : List Char → Bool
  | c :: rest => (c == 'T') && decide (rest.length = 33) && rest.all isAlnum
  | [] => false

/-- `^D[5-9A-HJ-NP-U][1-9A-HJ-NP-Za-km-z]{32}$` -/
def dogeMatch : List Char → Bool
  | c0 :: c1 :: rest =>
      (c0 == 'D') && isDogeSecond c1 && decide (rest.length = 32) && rest.all isDogeBody
  | _ => false

/-- `^r[0-9a-zA-Z]{24,34}$` -/
def xrpMatch : List Char → Bool
  | c :: rest =>
      (c == 'r') && decide (24 ≤ rest.length) && decide (rest.length ≤ 34) &&
        rest.all isAlnum
  | [] => false

/-- `AdvancedAddressValidator.detect_format` (lines 239-270).  The source first
strips surrounding whitespace; inputs here are the characters of the stripped
address.  The patterns are tried in the source's order: BTC, LTC, EVM, TRX,
DOGE, XRP; the first match wins, and `UNKNOWN` is returned when none match. -/
def detect_format (cs : List Char) : Family × String :=
  if btcMatch cs then (Family.BTC, "Bitcoin")
  else if ltcMatch cs then (Family.LTC, "Litecoin")
  else if evmMatch cs then (Family.EVM, "EVM Compatible")
  else if trxMatch cs then (Family.TRX, "Tron")
  else if dogeMatch cs then (Family.DOGE, "Dogecoin")
  else if xrpMatch cs then (Family.XRP, "Ripple")
  else (Family.UNKNOWN, "Unknown Format")

/-! ## EVM chain resolution

`AdvancedAddressValidator.verify_evm_chain` (lines 272-340) and
`check_evm_activity` (lines 342-360).  The network is modelled as an
environment giving, for each of the three candidate chains, the observable
outcome of its two explorer endpoints:

  * the balance endpoint (`api_urls[0]`): `balOk` is true when the GET
    returned HTTP 200 with parseable JSON whose status field is accepted by
    the per-chain condition (for ETH `status == '1' or message == 'OK'`, for
    BSC/POLYGON `status == '1'`) and whose `result` parses as an integer;
    `balance` is that integer (wei) — the source divides by `10^18` before
    comparing with 0, which preserves positivity;
  * the txlist endpoint (`api_urls[1]`, queried with `offset=1` so it
    returns at most one entry): `txOk` is true when the GET returned
    HTTP 200 with `status == '1'`, and `txCount` is the number of
    transactions of the address on that chain, so the returned list is
    non-empty exactly when `txOk && 0 < txCount`.

Any exception or timeout is the same as the corresponding `Ok` flag being
false (the source catches everything and skips the chain / returns False).
-/

inductive EvmChain
  | ETH | BSC | POLYGON
deriving DecidableEq, Repr

/-- `CHAIN_CONFIGS[chain]['name']` for the three EVM candidates. -/
def EvmChain.name : EvmChain → String
  | .ETH => "Ethereum"
  | .BSC => "BNB Smart Chain"
  | .POLYGON => "Polygon"

structure ProbeResult where
  balOk : Bool
  balance : Nat
  txOk : Bool
  txCount : Nat
deriving DecidableEq, Repr

structure EvmEnv where
  eth : ProbeResult
  bsc : ProbeResult
  polygon : ProbeResult
deriving DecidableEq, Repr

def EvmEnv.probe (env : EvmEnv) : EvmChain → ProbeResult
  | .ETH => env.eth
  | .BSC => env.bsc
  | .POLYGON => env.polygon

/-- `check_evm_activity` (lines 342-360): true iff the txlist query succeeded
(`status == '1'`) and the returned transaction list is non-empty. -/
def check_evm_activity (env : EvmEnv) (c : EvmChain) : Bool :=
  (env.probe c).txOk && decide (0 < (env.probe c).txCount)

/-- `chains_to_check = ['ETH', 'BSC', 'POLYGON']` (line 276). -/
def chains_to_check : List EvmChain := [.ETH, .BSC, .POLYGON]

/-- The per-chain entry stored in the `results` dict (balance plus
`config['name']`; the `valid: True` field is constant and omitted). -/
structure ChainInfo where
  balance : Nat
  name : String
deriving DecidableEq, Repr

/-- The `results` dict built by the candidate loop (lines 279-322): a chain is
present iff its balance query succeeded and its balance is positive or
`check_evm_activity` holds; Python dicts preserve insertion order, so the
entries appear in `chains_to_check` order. -/
def evmResults (env : EvmEnv) : List (EvmChain × ChainInfo) :=
  chains_to_check.filterMap (fun c =>
    let p := env.probe c
    if p.balOk && (decide (0 < p.balance) || check_evm_activity env c) then
      some (c, ⟨p.balance, c.name⟩)
    else none)

/-- `verify_evm_chain`'s decision logic (lines 324-340):

1. empty `results` → `('EVM (Unverified)', {})`;
2. first chain (in `['ETH','BSC','POLYGON']` order) present in `results`
   with positive balance → `"{name} (ERC-20)"`;
3. otherwise the first chain present in `results` for which
   `check_evm_activity` holds → `"{name} (ERC-20/BEP-20)"`;
4. otherwise the first key of `results` → `"{name} (Unused)"`.

Because `evmResults` lists chains in `chains_to_check` order, scanning
`chains_to_check` for membership in `results` is the same as scanning
`evmResults` directly. -/
def verify_evm_chain (env : EvmEnv) : String × Option ChainInfo :=
  match evmResults env with
  | [] => ("EVM (Unverified)", none)
  | (_, i0) :: _ =>
    match (evmResults env).find? (fun ci => decide (0 < ci.2.balance)) with
    | some (_, info) => (info.name ++ " (ERC-20)", some info)
    | none =>
      match (evmResults env).find? (fun ci => check_evm_activity env ci.1) with
      | some (_, info) => (info.name ++ " (ERC-20/BEP-20)", some info)
      | none => (i0.name ++ " (Unused)", some i0)

/-! ### HTTP event trace of `verify_evm_chain`

To settle the claims about which queries are issued and in which order, we
also embed the sequence of HTTP events the coroutine produces.  `req` marks
the issuing of a GET, `resp` its completion (response, timeout or
exception).  In the source each `async with session.get(...)` suspends until
the response arrives, so each request's completion precedes the next
request. -/

inductive QueryKind
  | balance | txList | contractCode
deriving DecidableEq, Repr

inductive Event
  | req (c : EvmChain) (k : QueryKind)
  | resp (c : EvmChain) (k : QueryKind)
deriving DecidableEq, Repr

def Event.isReq : Event → Bool
  | .req _ _ => true
  | .resp _ _ => false

def Event.kind : Event → QueryKind
  | .req _ k => k
  | .resp _ k => k

/-- One awaited GET: the request immediately followed by its completion. -/
def probeEvents (c : EvmChain) (k : QueryKind) : List Event :=
  [.req c k, .resp c k]

/-- Events of the candidate loop (lines 279-322): for each chain in order, the
balance query is always issued; the txlist query (`check_evm_activity`) is
issued only when the balance query succeeded and the balance is zero (the
`or` in `balance > 0 or await check_evm_activity(...)` short-circuits). -/
def loopEvents (env : EvmEnv) : List Event :=
  (chains_to_check.map (fun c =>
    let p := env.probe c
    probeEvents c .balance ++
      (if p.balOk && !(decide (0 < p.balance)) then probeEvents c .txList else []))).flatten

/-- Events of the decision phase's activity re-scan (lines 334-336): the loop
`for chain in [...]: if chain in results and await check_evm_activity(...)`
issues one txlist query per chain present in `results`, stopping at the
first chain whose activity check returns True. -/
def activityScan (env : EvmEnv) : List (EvmChain × ChainInfo) → List Event
  | [] => []
  | (c, _) :: rest =>
      probeEvents c .txList ++
        (if check_evm_activity env c then [] else activityScan env rest)

/-- Events of the decision logic (lines 324-340): no query is issued when
`results` is empty or some chain already has a positive balance (steps 1-2);
otherwise step 3 re-scans activity. -/
def decisionEvents (env : EvmEnv) : List Event :=
  match evmResults env with
  | [] => []
  | _ :: _ =>
    if (evmResults env).any (fun ci => decide (0 < ci.2.balance)) then []
    else activityScan env (evmResults env)

/-- The complete HTTP event trace of one `verify_evm_chain` call. -/
def verifyEvmEvents (env : EvmEnv) : List Event :=
  loopEvents env ++ decisionEvents env

/-- Number of HTTP requests issued by one `verify_evm_chain` call. -/
def evmRequestCount (env : EvmEnv) : Nat :=
  ((verifyEvmEvents env).filter Event.isReq).length

/-! ## Wallet information

`AdvancedAddressValidator.get_wallet_info` (lines 362-440).  One branch per
chain type; each issues a single GET whose observable outcome is a
`WalletEnv`: `ok` is true when the request returned HTTP 200 with a JSON
body accepted by the branch's condition (for EVM `status == '1'`, for TRX
`'balances' in data`; BTC/LTC accept any parseable body), and `n_tx` is the
branch's transaction count (`n_tx`, `len(result)` with `offset=10`, or
`totalTransactionCount`).  We keep the three fields the handler reads:
`wallet_type`, `tx_count` and `status`. -/

structure WalletEnv where
  ok : Bool
  n_tx : Nat
deriving DecidableEq, Repr

structure WalletInfo where
  wallet_type : String
  tx_count : Nat
  status : String
deriving DecidableEq, Repr

/-- The defaults `get_wallet_info` starts from (lines 365-372). -/
def walletDefaults : WalletInfo :=
  ⟨"Unknown", 0, "Unverified"⟩

/-- `get_wallet_info` (lines 362-440): branches exist only for BTC, LTC, EVM
and TRX; every other chain type (including `UNKNOWN`, DOGE and XRP) returns
the defaults, as does any failed or rejected query. -/
def get_wallet_info (chainType : Family) (w : WalletEnv) : WalletInfo :=
  match chainType with
  | .BTC =>
      if w.ok then
        ⟨"Bitcoin Wallet", w.n_tx, if 0 < w.n_tx then "✅ Verified" else "🆕 New"⟩
      else walletDefaults
  | .LTC =>
      if w.ok then
        ⟨"Litecoin Wallet", w.n_tx, if 0 < w.n_tx then "✅ Verified" else "🆕 New"⟩
      else walletDefaults
  | .EVM =>
      if w.ok then
        ⟨"Ethereum Wallet", w.n_tx, if 0 < w.n_tx then "✅ Verified" else "🆕 New"⟩
      else walletDefaults
  | .TRX =>
      if w.ok then
        ⟨"Tron Wallet (TRC-20)", w.n_tx,
          if 0 < w.n_tx then "✅ Verified" else "🆕 New"⟩
      else walletDefaults
  | _ => walletDefaults

/-- Number of HTTP requests `get_wallet_info` issues for a chain type: one for
the BTC/LTC/EVM/TRX branches, none otherwise. -/
def walletRequestCount : Family → Nat
  | .BTC => 1
  | .LTC => 1
  | .EVM => 1
  | .TRX => 1
  | _ => 0

/-! ## Persistence and the escrow ledger

`load_json` (lines 133-142) and the state read by the command handler:
`data/user_roles.json` maps a group id to a map from user id to a role
record, and `data/user_addresses.json` maps a group id to a map from role
key to a saved address record.  JSON objects preserve insertion order, so
both are embedded as association lists. -/

abbrev GroupId := String
abbrev UserId := Nat

inductive Role
  | buyer | seller
deriving DecidableEq, Repr

/-- Roles table: group id → ordered entries `(user id, data.get('role'))`.
The role field is optional because the handler reads it with `.get('role')`. -/
abbrev RolesState := List (GroupId × List (UserId × Option Role))

/-- A saved address record (the fields of the dict built at lines 551-561
that the engine reads back: address, chain label, owner, wallet info and
status).  `warnings` is the sequence of advisory warning strings included in
the record — the source attaches none, so every construction site below
stores the empty list. -/
structure Record where
  address : List Char
  chain : String
  user_id : UserId
  wallet_info : WalletInfo
  status : String
  warnings : List String
deriving DecidableEq, Repr

/-- Addresses table: group id → ordered entries `(role key, record)`. -/
abbrev AddrState := List (GroupId × List (Role × Record))

/-- The observable state of a file read by `load_json`: the file may be
missing, unreadable (`IOError`), contain invalid JSON (`JSONDecodeError`),
or hold a good value. -/
inductive FileState (α : Type)
  | missing
  | ioError
  | badJson
  | good (d : α)
deriving DecidableEq, Repr

/-- `load_json` (lines 133-142): a missing file returns `{}`; `IOError` and
`json.JSONDecodeError` are caught and return `{}`; otherwise the parsed
value is returned.  `emp` is the empty mapping of the file's type. -/
def load_json {α : Type} (emp : α) : FileState α → α
  | .missing => emp
  | .ioError => emp
  | .badJson => emp
  | .good d => d

/-- `load_user_roles` (line 157). -/
def load_user_roles (fs : FileState RolesState) : RolesState :=
  load_json [] fs

/-- `load_addresses` (line 155). -/
def load_addresses (fs : FileState AddrState) : AddrState :=
  load_json [] fs

/-- Groups table (`data/active_groups.json`): group id → group info; the
engine reads only the `name` field. -/
abbrev GroupsState := List (GroupId × String)

/-- `load_groups` (line 158). -/
def load_groups (fs : FileState GroupsState) : GroupsState :=
  load_json [] fs

/-- The group/role lookup of `handle_address_command` (lines 483-493): scan
the groups in order; within a group scan the user entries in order; the
first entry whose user id equals the sender's id fixes the group and the
role, and both loops stop.  (Group ids are non-empty Telegram chat-id
strings, so the source's truthiness test on the found id is simply
presence.) -/
def findUserGroupRole (roles : RolesState) (uid : UserId) :
    Option (GroupId × Option Role) :=
  roles.findSome? (fun gr =>
    (gr.2.find? (fun e => e.1 == uid)).map (fun e => (gr.1, e.2)))

/-- Python dict update: replace in place when the key exists, append when it
does not. -/
def setAssoc {α β : Type} [BEq α] : List (α × β) → α → β → List (α × β)
  | [], k, v => [(k, v)]
  | (k', v') :: rest, k, v =>
      if k' == k then (k, v) :: rest else (k', v') :: setAssoc rest k v

/-- `addresses[group][role] = record` (lines 548-561): create the group's
inner dict if absent, then set the role key. -/
def setRecord (st : AddrState) (g : GroupId) (k : Role) (rec : Record) :
    AddrState :=
  setAssoc st g (setAssoc ((st.lookup g).getD []) k rec)

/-! ## The command handler -/

/-- The environment of one `handle_address_command` invocation: the EVM
probe responses, the wallet-info response, and whether the final
`save_addresses` write succeeds. -/
structure NetEnv where
  evm : EvmEnv
  wallet : WalletEnv
  saveOk : Bool
deriving DecidableEq, Repr

/-- The user-visible outcome of one `handle_address_command` invocation
(which reply template the handler renders, with the data it interpolates). -/
inductive Outcome
  | invalidFormat (address : List Char)
  | noRole
  | duplicateRole (existingRole : Role) (existingAddress : Option (List Char))
      (existingChain : Option String)
  | alreadySet (existing : Record)
  | saved (rec : Record)
  | saveFailed
deriving DecidableEq, Repr

def Outcome.isDuplicateRole : Outcome → Bool
  | .duplicateRole _ _ _ => true
  | _ => false

/-- `handle_address_command` (lines 443-585), for a command that carries an
address.  `address` is the stripped address token.  Steps, in source order:

1. `detect_format`; `UNKNOWN` → the `INVALID_FORMAT` reply, nothing saved;
2. load roles and addresses, find the sender's group and role; none →
   the `NO_ROLE` reply;
3. the sender holds a different role (`user_role_in_group` truthy and
   different from the command's role) → the `DUPLICATE_USER` reply showing
   the sender's existing record, nothing saved;
4. a record for this group and role already exists and was saved by this
   sender → the `ALREADY_SET` reply showing the existing record, nothing
   saved;
5. otherwise resolve the chain (EVM addresses via `verify_evm_chain`,
   others keep the detected chain name), fetch wallet info, build the
   record and save it; a failed write leaves the stored table unchanged.

The function returns the outcome together with the persisted addresses
table after the call. -/
def saveStep (addresses : AddrState) (g : GroupId) (d : Family × String)
    (userId : UserId) (roleKey : Role) (address : List Char) (env : NetEnv) :
    Outcome × AddrState :=
  let finalChain :=
    if d.1 = Family.EVM then (verify_evm_chain env.evm).1 else d.2
  let winfo := get_wallet_info d.1 env.wallet
  let newRec : Record :=
    { address := address, chain := finalChain, user_id := userId,
      wallet_info := winfo, status := winfo.status, warnings := [] }
  if env.saveOk then (.saved newRec, setRecord addresses g roleKey newRec)
  else (.saveFailed, addresses)

/-- Step 4 of the handler (lines 516-531): if a record already exists for
this group and role *and was saved by this sender*, reply `ALREADY_SET`;
otherwise fall through to step 5 (note the source overwrites in the
fall-through case). -/
def existingCheck (addresses : AddrState) (g : GroupId) (d : Family × String)
    (userId : UserId) (roleKey : Role) (address : List Char) (env : NetEnv) :
    Outcome × AddrState :=
  match ((addresses.lookup g).getD []).lookup roleKey with
  | some existing =>
    if existing.user_id == userId then (.alreadySet existing, addresses)
    else saveStep addresses g d userId roleKey address env
  | none => saveStep addresses g d userId roleKey address env

def handle_address_command (roles : RolesState) (addresses : AddrState)
    (userId : UserId) (roleKey : Role) (address : List Char) (env : NetEnv) :
    Outcome × AddrState :=
  let d := detect_format address
  if d.1 = Family.UNKNOWN then (.invalidFormat address, addresses)
  else
    match findUserGroupRole roles userId with
    | none => (.noRole, addresses)
    | some (g, userRole) =>
      match userRole with
      | some r =>
        if r ≠ roleKey then
          let ga := (addresses.lookup g).getD []
          (.duplicateRole r ((ga.lookup r).map Record.address)
            ((ga.lookup r).map Record.chain), addresses)
        else existingCheck addresses g d userId roleKey address env
      | none => existingCheck addresses g d userId roleKey address env

/-- Number of HTTP requests issued by one `handle_address_command`
invocation, mirroring the handler's control flow: the network is touched
only on the save path (step 5), where an EVM address triggers
`verify_evm_chain`'s probes and every known family triggers the single
`get_wallet_info` query of its branch. -/
def handlerRequestCount (roles : RolesState) (addresses : AddrState)
    (userId : UserId) (roleKey : Role) (address : List Char) (env : NetEnv) :
    Nat :=
  let d := detect_format address
  if d.1 = Family.UNKNOWN then 0
  else
    match findUserGroupRole roles userId with
    | none => 0
    | some (g, userRole) =>
      let saveCalls :=
        (if d.1 = Family.EVM then evmRequestCount env.evm else 0) +
          walletRequestCount d.1
      let existingCalls :=
        match ((addresses.lookup g).getD []).lookup roleKey with
        | some existing => if existing.user_id == userId then 0 else saveCalls
        | none => saveCalls
      match userRole with
      | some r => if r ≠ roleKey then 0 else existingCalls
      | none => existingCalls

/-! ## Predicates taken from the specification's words

These definitions follow the spec, not the source; they exist only to be
compared with the source-derived definitions above. -/

/-- Modelled from the spec: the general base58 alphabet, which "excludes the
glyphs 0, O, I, and l" — alphanumerics minus those four characters. -/
def isBase58Spec (c : Char) : Bool :=
  isAlnum c && !(c == '0') && !(c == 'O') && !(c == 'I') && !(c == 'l')

/-- Modelled from the spec: "TRON: `T` followed by exactly 33 base58-alphabet
characters". -/
def spec_tron_pattern : List Char → Bool
  | c :: rest => (c == 'T') && decide (rest.length = 33) && rest.all isBase58Spec
  | [] => false

/-- Modelled from the spec: a fan-out/fan-in trace — "all probes are launched
together", i.e. every request event precedes every completion event. -/
def launchedTogether (t : List Event) : Bool :=
  (t.dropWhile Event.isReq).all (fun e => !e.isReq)

/-- A strictly sequential trace: each request is immediately followed by its
own completion (the awaiting coroutine cannot issue the next request until
the pending one completes). -/
def seqPaired : List Event → Bool
  | [] => true
  | .req c k :: .resp c2 k2 :: rest => c == c2 && k == k2 && seqPaired rest
  | _ => false

/-! ## Concrete inputs used by witnesses and counterexamples -/

/-- The character `'3'` followed by 26 `'a'`s: inside both the BTC legacy
pattern (prefix `[13]`, 25-34 body chars) and the LTC legacy pattern
(prefix `[LM3]`, 26-33 body chars). -/
def addr3a : List Char := '3' :: List.replicate 26 'a'

/-- `T` followed by 33 `'0'`s: alphanumeric but not base58. -/
def addrT0 : List Char := 'T' :: List.replicate 33 '0'

/-- A syntactically valid EVM address: `0x` followed by 40 hex digits. -/
def addr0x : List Char := '0' :: 'x' :: List.replicate 40 'a'

/-- The spec's dual-activity tie: ETH and BSC both answer with zero balance
and `txCount = 3`; the Polygon probe fails. -/
def envTie : EvmEnv :=
  ⟨⟨true, 0, true, 3⟩, ⟨true, 0, true, 3⟩, ⟨false, 0, false, 0⟩⟩

/-- All three chains active with zero balances and unequal transaction
counts: BSC and POLYGON report far more transactions than ETH. -/
def envUneq : EvmEnv :=
  ⟨⟨true, 0, true, 1⟩, ⟨true, 0, true, 100⟩, ⟨true, 0, true, 7⟩⟩

/-- Every probe of every chain fails. -/
def envFailAll : EvmEnv :=
  ⟨⟨false, 0, false, 0⟩, ⟨false, 0, false, 0⟩, ⟨false, 0, false, 0⟩⟩

/-- ETH answers with a positive balance; BSC and POLYGON probes fail. -/
def envEthBal : EvmEnv :=
  ⟨⟨true, 5, true, 7⟩, ⟨false, 0, false, 0⟩, ⟨false, 0, false, 0⟩⟩

/-- All three chains answer with positive balances and activity. -/
def envAllBal : EvmEnv :=
  ⟨⟨true, 1, true, 1⟩, ⟨true, 1, true, 1⟩, ⟨true, 1, true, 1⟩⟩

/-- A network environment in which nothing is reachable but the JSON write
succeeds. -/
def netEnvDown : NetEnv := ⟨envFailAll, ⟨false, 0⟩, true⟩

/-- A roles table for witnesses: in group `"g"`, user 1 is the buyer and
user 2 is the seller. -/
def rolesW : RolesState := [("g", [(1, some Role.buyer), (2, some Role.seller)])]

/-- A stored buyer record saved by user 1. -/
def recW : Record := ⟨addr0x, "Ethereum (ERC-20)", 1, walletDefaults, "Unverified", []⟩

/-- An addresses table for witnesses: group `"g"` already holds `recW` for
the buyer role. -/
def addrW : AddrState := [("g", [(Role.buyer, recW)])]

/-! ## Theorems -/

/-- C7: for every raw address whose format detection yields `UNKNOWN`, the
submission is rejected immediately with the unrecognized-format error, the
stored addresses are untouched, and no network probe call is made (zero
HTTP requests). -/
theorem c7_unknown_rejected_no_network
    (roles : RolesState) (addresses : AddrState) (userId : UserId)
    (roleKey : Role) (address : List Char) (env : NetEnv)
    (h : (detect_format address).1 = Family.UNKNOWN) :
    handle_address_command roles addresses userId roleKey address env =
      (Outcome.invalidFormat address, addresses) ∧
    handlerRequestCount roles addresses userId roleKey address env = 0 := by
  constructor
  · unfold handle_address_command
    simp [h]
  · unfold handlerRequestCount
    simp [h]

/-- Witness for C7: the spec's example `"not-an-address"` is rejected with no
state change and zero HTTP requests. -/
theorem c7_witness :
    handle_address_command [] [] 1 Role.buyer "not-an-address".toList netEnvDown =
      (Outcome.invalidFormat "not-an-address".toList, []) ∧
    handlerRequestCount [] [] 1 Role.buyer "not-an-address".toList netEnvDown = 0 :=
  c7_unknown_rejected_no_network [] [] 1 Role.buyer "not-an-address".toList
    netEnvDown (by decide)

/-- C10: every persistence-file load is total — a missing, unreadable or
invalid-JSON backing file makes `load_json` return the empty mapping
instead of raising, so the subsequent role and address lookups behave as if
no records exist. -/
theorem c10_load_json_total
    (fr : FileState RolesState) (fa : FileState AddrState)
    (fg : FileState GroupsState) (uid : UserId) (g : GroupId)
    (hr : fr = .missing ∨ fr = .ioError ∨ fr = .badJson)
    (ha : fa = .missing ∨ fa = .ioError ∨ fa = .badJson)
    (hg : fg = .missing ∨ fg = .ioError ∨ fg = .badJson) :
    load_user_roles fr = [] ∧ load_addresses fa = [] ∧ load_groups fg = [] ∧
    findUserGroupRole (load_user_roles fr) uid = none ∧
    (load_addresses fa).lookup g = none ∧
    (load_groups fg).lookup g = none := by
  rcases hr with h | h | h <;> rcases ha with h2 | h2 | h2 <;>
    rcases hg with h3 | h3 | h3 <;> subst h <;> subst h2 <;> subst h3 <;>
    simp [load_user_roles, load_addresses, load_groups, load_json,
      findUserGroupRole]

/-- Witness for C10: a corrupt roles file, an unreadable addresses file and a
missing groups file all load as empty mappings with empty lookups. -/
theorem c10_witness :
    load_user_roles .badJson = [] ∧ load_addresses .ioError = [] ∧
    load_groups .missing = [] ∧
    findUserGroupRole (load_user_roles .badJson) 7 = none ∧
    (load_addresses .ioError).lookup "g" = none ∧
    (load_groups .missing).lookup "g" = none :=
  c10_load_json_total .badJson .ioError .missing 7 "g"
    (Or.inr (Or.inr rfl)) (Or.inr (Or.inl rfl)) (Or.inl rfl)

/-- C3: a second submission for a session and role that already has a stored
record — which, the submitter having passed the role checks, comes from the
record's owner — returns `AddressAlreadySet` carrying the existing record
for display and leaves the stored addresses table unaltered. -/
theorem c3_already_set_immutable
    (roles : RolesState) (addresses : AddrState) (userId : UserId)
    (roleKey : Role) (address : List Char) (env : NetEnv)
    (g : GroupId) (rec0 : Record)
    (hfmt : (detect_format address).1 ≠ Family.UNKNOWN)
    (hfind : findUserGroupRole roles userId = some (g, some roleKey))
    (hrec : ((addresses.lookup g).getD []).lookup roleKey = some rec0)
    (hown : rec0.user_id = userId) :
    handle_address_command roles addresses userId roleKey address env =
      (Outcome.alreadySet rec0, addresses) := by
  unfold handle_address_command existingCheck
  simp [hfmt, hfind, hrec, hown]

/-- Witness for C3: user 1, the buyer of group `"g"`, resubmits a buyer
address while `recW` is already stored; the reply shows `recW` and the
table is unchanged. -/
theorem c3_witness :
    handle_address_command rolesW addrW 1 Role.buyer addr0x netEnvDown =
      (Outcome.alreadySet recW, addrW) :=
  c3_already_set_immutable rolesW addrW 1 Role.buyer addr0x netEnvDown "g" recW
    (by decide) (by decide) (by decide) (by decide)

/-- C4: a user who already holds one role in a session and submits an address
claiming the opposite role receives `DuplicateRoleConflict` (the
`DUPLICATE_USER` reply, showing their existing role) and no address record
is created — the stored table is unchanged. -/
theorem c4_duplicate_role_conflict
    (roles : RolesState) (addresses : AddrState) (userId : UserId)
    (roleKey : Role) (address : List Char) (env : NetEnv)
    (g : GroupId) (r : Role)
    (hfmt : (detect_format address).1 ≠ Family.UNKNOWN)
    (hfind : findUserGroupRole roles userId = some (g, some r))
    (hne : r ≠ roleKey) :
    ∃ ea ec, handle_address_command roles addresses userId roleKey address env =
      (Outcome.duplicateRole r ea ec, addresses) := by
  unfold handle_address_command
  simp [hfmt, hfind, hne]

/-- Witness for C4: user 2, the seller of group `"g"`, submits a buyer
address and is rejected with `DuplicateRoleConflict`; the table keeps only
the original buyer record. -/
theorem c4_witness :
    ∃ ea ec, handle_address_command rolesW addrW 2 Role.buyer addr0x netEnvDown =
      (Outcome.duplicateRole Role.seller ea ec, addrW) :=
  c4_duplicate_role_conflict rolesW addrW 2 Role.buyer addr0x netEnvDown "g"
    Role.seller (by decide) (by decide) (by decide)

/-- Counterexample to C1: on the spec's exact-tie scenario — ETH and BSC both
report `txCount = 3` with zero balances and the Polygon probe failing — the
resolver returns the label "Ethereum (ERC-20/BEP-20)", i.e. the first
candidate of the fixed probe order, not the BSC default the claim asserts;
the returned pair carries no warning of any kind.  (The source never
compares transaction counts; `check_evm_activity` only tests whether the
count is non-zero.) -/
theorem c1_counterexample :
    envTie.eth.txCount = envTie.bsc.txCount ∧ 0 < envTie.eth.txCount ∧
    verify_evm_chain envTie = ("Ethereum (ERC-20/BEP-20)", some ⟨0, "Ethereum"⟩) := by
  decide

/-- C1 (amended): when two or more EVM candidates are active (their probes
succeed and report `txCount > 0`) and every candidate's balance is zero,
chain resolution does not compare the transaction counts at all: whatever
the counts — an exact tie, or a later chain with a strictly greater count —
it accepts the first active chain in the fixed probe order ETH, BSC,
POLYGON, and the returned result carries no warning. -/
theorem c1_amended_first_active_no_count_comparison (env : EvmEnv)
    (c0 : EvmChain)
    (hz : ∀ c, (env.probe c).balance = 0)
    (h2 : 2 ≤ (chains_to_check.filter
      (fun c => (env.probe c).balOk && check_evm_activity env c)).length)
    (hfirst : chains_to_check.find?
      (fun c => (env.probe c).balOk && check_evm_activity env c) = some c0) :
    verify_evm_chain env =
      (c0.name ++ " (ERC-20/BEP-20)", some ⟨0, c0.name⟩) := by
  cases hA : (env.probe .ETH).balOk && check_evm_activity env .ETH <;>
  cases hB : (env.probe .BSC).balOk && check_evm_activity env .BSC <;>
  cases hC : (env.probe .POLYGON).balOk && check_evm_activity env .POLYGON <;>
  simp_all [chains_to_check, verify_evm_chain, evmResults, EvmChain.name]

/-- Witness for C1 (amended): with all three chains active on zero balances
and BSC reporting 100 transactions against ETH's single one, resolution
still selects Ethereum — the first chain in the fixed order. -/
theorem c1_amended_witness :
    verify_evm_chain envUneq = ("Ethereum (ERC-20/BEP-20)", some ⟨0, "Ethereum"⟩) :=
  c1_amended_first_active_no_count_comparison envUneq .ETH
    (fun c => by cases c <;> rfl) (by decide) (by decide)

/-- A second roles table: in group `"h"`, user 5 is the buyer. -/
def rolesW2 : RolesState := [("h", [(5, some Role.buyer)])]

/-- The record produced when every probe fails for an EVM address submitted
by user 5. -/
def recUnv : Record := ⟨addr0x, "EVM (Unverified)", 5, walletDefaults, "Unverified", []⟩

/-- Counterexample to C2: with every chain probe failing, the submission is
accepted (saved) under the "EVM (Unverified)" label with status
"Unverified" — but the warnings sequence of the saved record is empty, not
non-empty as the claim asserts: the source attaches no warning on the
fail-open path (or anywhere else). -/
theorem c2_counterexample :
    handle_address_command rolesW2 [] 5 Role.buyer addr0x netEnvDown =
      (Outcome.saved recUnv, [("h", [(Role.buyer, recUnv)])]) ∧
    recUnv.chain = "EVM (Unverified)" ∧ recUnv.warnings = [] := by
  decide

/-- C2 (amended): for an EVM-family address, if every chain probe fails,
resolution still accepts the address: the record is saved under the
"EVM (Unverified)" label with status "Unverified" — but with an empty
warnings sequence (the source produces no warnings). -/
theorem c2_amended_fail_open_no_warnings
    (roles : RolesState) (addresses : AddrState) (userId : UserId)
    (roleKey : Role) (address : List Char) (env : NetEnv) (g : GroupId)
    (hfmt : (detect_format address).1 = Family.EVM)
    (hfind : findUserGroupRole roles userId = some (g, some roleKey))
    (hnone : ((addresses.lookup g).getD []).lookup roleKey = none)
    (h1 : env.evm.eth.balOk = false) (h2 : env.evm.bsc.balOk = false)
    (h3 : env.evm.polygon.balOk = false) (h4 : env.wallet.ok = false)
    (h5 : env.saveOk = true) :
    handle_address_command roles addresses userId roleKey address env =
      (Outcome.saved
        ⟨address, "EVM (Unverified)", userId, walletDefaults, "Unverified", []⟩,
       setRecord addresses g roleKey
        ⟨address, "EVM (Unverified)", userId, walletDefaults, "Unverified", []⟩) := by
  have hv : verify_evm_chain env.evm = ("EVM (Unverified)", none) := by
    have hres : evmResults env.evm = [] := by
      simp [evmResults, chains_to_check, EvmEnv.probe, h1, h2, h3]
    unfold verify_evm_chain
    rw [hres]
  unfold handle_address_command existingCheck saveStep
  simp [hfmt, hfind, hnone, hv, get_wallet_info, h4, h5, walletDefaults]

/-- Witness for C2 (amended): user 5's EVM submission with the whole network
down is saved as "EVM (Unverified)" with no warnings. -/
theorem c2_amended_witness :
    handle_address_command rolesW2 [] 5 Role.buyer addr0x netEnvDown =
      (Outcome.saved
        ⟨addr0x, "EVM (Unverified)", 5, walletDefaults, "Unverified", []⟩,
       setRecord [] "h" Role.buyer
        ⟨addr0x, "EVM (Unverified)", 5, walletDefaults, "Unverified", []⟩) :=
  c2_amended_fail_open_no_warnings rolesW2 [] 5 Role.buyer addr0x netEnvDown "h"
    (by decide) (by decide) (by decide) (by decide) (by decide) (by decide)
    (by decide) (by decide)

/-! ### First-character lemmas for the family patterns -/

lemma btcMatch_head {c : Char} {rest : List Char}
    (h : btcMatch (c :: rest) = true) : c = '1' ∨ c = '3' ∨ c = 'b' := by
  rcases rest with _ | ⟨c1, _ | ⟨c2, _ | ⟨c3, rest⟩⟩⟩ <;>
    simp [btcMatch, btcLegacy, btcBech32, btcBech32m] at h
  all_goals tauto

lemma ltcMatch_head {c : Char} {rest : List Char}
    (h : ltcMatch (c :: rest) = true) : c = 'L' ∨ c = 'M' ∨ c = '3' ∨ c = 'l' := by
  rcases rest with _ | ⟨c1, _ | ⟨c2, _ | ⟨c3, rest⟩⟩⟩ <;>
    simp [ltcMatch, ltcLegacy, ltcBech32] at h
  all_goals tauto

lemma evmMatch_head {c : Char} {rest : List Char}
    (h : evmMatch (c :: rest) = true) : c = '0' := by
  rcases rest with _ | ⟨c1, rest⟩ <;> simp [evmMatch] at h
  all_goals tauto

lemma trxMatch_head {c : Char} {rest : List Char}
    (h : trxMatch (c :: rest) = true) : c = 'T' := by
  simp [trxMatch] at h
  tauto

lemma dogeMatch_head {c : Char} {rest : List Char}
    (h : dogeMatch (c :: rest) = true) : c = 'D' := by
  rcases rest with _ | ⟨c1, rest⟩ <;> simp [dogeMatch] at h
  all_goals tauto

lemma xrpMatch_head {c : Char} {rest : List Char}
    (h : xrpMatch (c :: rest) = true) : c = 'r' := by
  simp [xrpMatch] at h
  tauto

/-- Counterexample to C5: the 27-character string `'3'` followed by 26 `'a'`s
is matched by both the BTC legacy pattern (`^[13][...]{25,34}$`) and the LTC
legacy pattern (`^[LM3][...]{26,33}$`) — the family patterns are not
mutually exclusive. -/
theorem c5_counterexample : btcMatch addr3a = true ∧ ltcMatch addr3a = true := by
  decide

/-- C5 (amended): the family patterns are pairwise mutually exclusive except
that the BTC and LTC patterns overlap (on `'3'`-prefixed legacy strings);
on the overlap, format detection still assigns a unique family — BTC, the
first pattern tried. -/
theorem c5_amended_exclusive_except_btc_ltc (cs : List Char) :
    (btcMatch cs = true → ltcMatch cs = true →
      detect_format cs = (Family.BTC, "Bitcoin")) ∧
    ¬(btcMatch cs = true ∧ evmMatch cs = true) ∧
    ¬(btcMatch cs = true ∧ trxMatch cs = true) ∧
    ¬(btcMatch cs = true ∧ dogeMatch cs = true) ∧
    ¬(btcMatch cs = true ∧ xrpMatch cs = true) ∧
    ¬(ltcMatch cs = true ∧ evmMatch cs = true) ∧
    ¬(ltcMatch cs = true ∧ trxMatch cs = true) ∧
    ¬(ltcMatch cs = true ∧ dogeMatch cs = true) ∧
    ¬(ltcMatch cs = true ∧ xrpMatch cs = true) ∧
    ¬(evmMatch cs = true ∧ trxMatch cs = true) ∧
    ¬(evmMatch cs = true ∧ dogeMatch cs = true) ∧
    ¬(evmMatch cs = true ∧ xrpMatch cs = true) ∧
    ¬(trxMatch cs = true ∧ dogeMatch cs = true) ∧
    ¬(trxMatch cs = true ∧ xrpMatch cs = true) ∧
    ¬(dogeMatch cs = true ∧ xrpMatch cs = true) := by
  refine ⟨fun hb _ => by simp [detect_format, hb], ?_, ?_, ?_, ?_, ?_, ?_, ?_,
    ?_, ?_, ?_, ?_, ?_, ?_, ?_⟩ <;> rintro ⟨h1, h2⟩ <;>
    rcases cs with _ | ⟨c, rest⟩
  · exact absurd h1 (by decide)
  · rcases btcMatch_head h1 with rfl | rfl | rfl <;>
      exact absurd (evmMatch_head h2) (by decide)
  · exact absurd h1 (by decide)
  · rcases btcMatch_head h1 with rfl | rfl | rfl <;>
      exact absurd (trxMatch_head h2) (by decide)
  · exact absurd h1 (by decide)
  · rcases btcMatch_head h1 with rfl | rfl | rfl <;>
      exact absurd (dogeMatch_head h2) (by decide)
  · exact absurd h1 (by decide)
  · rcases btcMatch_head h1 with rfl | rfl | rfl <;>
      exact absurd (xrpMatch_head h2) (by decide)
  · exact absurd h1 (by decide)
  · rcases ltcMatch_head h1 with rfl | rfl | rfl | rfl <;>
      exact absurd (evmMatch_head h2) (by decide)
  · exact absurd h1 (by decide)
  · rcases ltcMatch_head h1 with rfl | rfl | rfl | rfl <;>
      exact absurd (trxMatch_head h2) (by decide)
  · exact absurd h1 (by decide)
  · rcases ltcMatch_head h1 with rfl | rfl | rfl | rfl <;>
      exact absurd (dogeMatch_head h2) (by decide)
  · exact absurd h1 (by decide)
  · rcases ltcMatch_head h1 with rfl | rfl | rfl | rfl <;>
      exact absurd (xrpMatch_head h2) (by decide)
  · exact absurd h1 (by decide)
  · obtain rfl := evmMatch_head h1
    exact absurd (trxMatch_head h2) (by decide)
  · exact absurd h1 (by decide)
  · obtain rfl := evmMatch_head h1
    exact absurd (dogeMatch_head h2) (by decide)
  · exact absurd h1 (by decide)
  · obtain rfl := evmMatch_head h1
    exact absurd (xrpMatch_head h2) (by decide)
  · exact absurd h1 (by decide)
  · obtain rfl := trxMatch_head h1
    exact absurd (dogeMatch_head h2) (by decide)
  · exact absurd h1 (by decide)
  · obtain rfl := trxMatch_head h1
    exact absurd (xrpMatch_head h2) (by decide)
  · exact absurd h1 (by decide)
  · obtain rfl := dogeMatch_head h1
    exact absurd (xrpMatch_head h2) (by decide)

/-- Witness for C5 (amended): the overlap string `addr3a` matches both BTC
and LTC patterns, and format detection classifies it as Bitcoin. -/
theorem c5_amended_witness : detect_format addr3a = (Family.BTC, "Bitcoin") :=
  (c5_amended_exclusive_except_btc_ltc addr3a).1 (by decide) (by decide)

/-- Counterexample to C8: `'T'` followed by 33 `'0'`s is classified into the
TRON family by `detect_format`, yet `'0'` is not a base58-alphabet
character — the source's TRX pattern accepts all alphanumerics
(`^T[0-9a-zA-Z]{33}$`), not just base58. -/
theorem c8_counterexample :
    detect_format addrT0 = (Family.TRX, "Tron") ∧
    spec_tron_pattern addrT0 = false := by
  decide

/-- C8 (amended): format detection classifies a trimmed input into the TRON
family exactly when it is the letter `T` followed by exactly 33
alphanumeric (`[0-9a-zA-Z]`) characters; the alphabet is not restricted to
base58. -/
theorem c8_amended_tron_iff_alnum (cs : List Char) :
    (detect_format cs).1 = Family.TRX ↔ trxMatch cs = true := by
  constructor
  · intro h
    unfold detect_format at h
    split_ifs at h
    all_goals simp_all
  · intro h
    rcases cs with _ | ⟨c, rest⟩
    · exact absurd h (by decide)
    · obtain rfl := trxMatch_head h
      have hb : btcMatch ('T' :: rest) = false := by
        cases hb : btcMatch ('T' :: rest)
        · rfl
        · rcases btcMatch_head hb with h2 | h2 | h2 <;> exact absurd h2 (by decide)
      have hl : ltcMatch ('T' :: rest) = false := by
        cases hl : ltcMatch ('T' :: rest)
        · rfl
        · rcases ltcMatch_head hl with h2 | h2 | h2 | h2 <;>
            exact absurd h2 (by decide)
      have he : evmMatch ('T' :: rest) = false := by
        cases he : evmMatch ('T' :: rest)
        · rfl
        · exact absurd (evmMatch_head he) (by decide)
      simp [detect_format, hb, hl, he, h]

/-- Witness for C8 (amended): the all-zero-body TRON string is classified
TRX via the alphanumeric pattern. -/
theorem c8_amended_witness : (detect_format addrT0).1 = Family.TRX :=
  (c8_amended_tron_iff_alnum addrT0).mpr (by decide)

/-! ### Trace lemmas -/

lemma mem_probeEvents {e : Event} {c : EvmChain} {k : QueryKind}
    (h : e ∈ probeEvents c k) : e.kind = k := by
  simp [probeEvents] at h
  rcases h with rfl | rfl <;> rfl

lemma mem_loopEvents_kind {env : EvmEnv} {e : Event} (h : e ∈ loopEvents env) :
    e.kind = .balance ∨ e.kind = .txList := by
  unfold loopEvents at h
  rw [List.mem_flatten] at h
  obtain ⟨l, hl, hel⟩ := h
  rw [List.mem_map] at hl
  obtain ⟨c, _, rfl⟩ := hl
  dsimp only at hel
  rcases List.mem_append.mp hel with h | h
  · exact Or.inl (mem_probeEvents h)
  · split at h
    · exact Or.inr (mem_probeEvents h)
    · simp at h

lemma mem_activityScan_kind {env : EvmEnv} :
    ∀ {l : List (EvmChain × ChainInfo)} {e : Event},
      e ∈ activityScan env l → e.kind = .txList := by
  intro l
  induction l with
  | nil => intro e h; simp [activityScan] at h
  | cons hd tl ih =>
    intro e h
    unfold activityScan at h
    rcases List.mem_append.mp h with h | h
    · exact mem_probeEvents h
    · split at h
      · simp at h
      · exact ih h

lemma seqPaired_probe_append (c : EvmChain) (k : QueryKind) (rest : List Event) :
    seqPaired (probeEvents c k ++ rest) = seqPaired rest := by
  simp [probeEvents, seqPaired]

lemma seqPaired_ite_probe_append (b : Bool) (c : EvmChain) (k : QueryKind)
    (rest : List Event) :
    seqPaired ((if b = true then probeEvents c k else []) ++ rest) =
      seqPaired rest := by
  split
  · exact seqPaired_probe_append c k rest
  · simp

lemma verifyEvmEvents_kind {env : EvmEnv} {e : Event}
    (h : e ∈ verifyEvmEvents env) : e.kind = .balance ∨ e.kind = .txList := by
  unfold verifyEvmEvents at h
  rcases List.mem_append.mp h with h | h
  · exact mem_loopEvents_kind h
  · unfold decisionEvents at h
    split at h
    · simp at h
    · split at h
      · simp at h
      · exact Or.inr (mem_activityScan_kind h)

/-- Counterexample to C6: when ETH reports a positive balance and the other
probes fail, the ETH probe issues only the balance query — no
transaction-count (txlist) query and no contract-code query — yet the claim
asserts each probe issues both a transaction-count and a contract-code
query.  (The source has no contract-code query at all and computes no
`isContract` flag.) -/
theorem c6_counterexample :
    Event.req .ETH .balance ∈ verifyEvmEvents envEthBal ∧
    Event.req .ETH .txList ∉ verifyEvmEvents envEthBal ∧
    Event.req .ETH .contractCode ∉ verifyEvmEvents envEthBal := by
  decide

/-- C6 (amended): each EVM candidate probe issues the balance query, and a
transaction-list query only conditionally (when the balance query succeeds
with zero balance, or during the decision re-scan); no contract-code query
is ever issued — every event in the trace is a balance or txlist query —
so no contract flag exists and no contract warning can be prepended. -/
theorem c6_amended_no_contract_query (env : EvmEnv) (c : EvmChain) :
    Event.req c .balance ∈ verifyEvmEvents env ∧
    Event.req c .contractCode ∉ verifyEvmEvents env := by
  constructor
  · unfold verifyEvmEvents
    refine List.mem_append.mpr (Or.inl ?_)
    unfold loopEvents
    rw [List.mem_flatten]
    refine ⟨_, List.mem_map.mpr ⟨c, by cases c <;> simp [chains_to_check], rfl⟩, ?_⟩
    dsimp only
    exact List.mem_append.mpr (Or.inl (by simp [probeEvents]))
  · intro hmem
    rcases verifyEvmEvents_kind hmem with h | h <;> simp [Event.kind] at h

/-- Witness for C6 (amended): at the concrete environment `envTie`, the BSC
balance query is issued and no contract-code query for BSC appears. -/
theorem c6_amended_witness :
    Event.req .BSC .balance ∈ verifyEvmEvents envTie ∧
    Event.req .BSC .contractCode ∉ verifyEvmEvents envTie :=
  c6_amended_no_contract_query envTie .BSC

/-- Counterexample to C9: the probe trace is strictly sequential — with all
three chains answering, the trace begins with the ETH request and its
completion before the BSC request is even issued, so the probes are not
"launched together" (in a fan-out trace every request would precede every
completion). -/
theorem c9_counterexample :
    verifyEvmEvents envAllBal =
      [.req .ETH .balance, .resp .ETH .balance, .req .BSC .balance,
       .resp .BSC .balance, .req .POLYGON .balance, .resp .POLYGON .balance] ∧
    launchedTogether (verifyEvmEvents envAllBal) = false := by
  decide

/-- C9 (amended): within one resolution attempt the candidate probes execute
sequentially, one after another, in the fixed order ETH, BSC, POLYGON: every
request in the trace is immediately followed by its own completion (the
coroutine awaits each HTTP call before issuing the next), for every
environment. -/
theorem c9_amended_probes_sequential (env : EvmEnv) :
    seqPaired (verifyEvmEvents env) = true := by
  have hscan : ∀ l : List (EvmChain × ChainInfo),
      seqPaired (activityScan env l) = true := by
    intro l
    induction l with
    | nil => rfl
    | cons hd tl ih =>
      obtain ⟨c, i⟩ := hd
      unfold activityScan
      rw [seqPaired_probe_append]
      split
      · rfl
      · exact ih
  have hdec : seqPaired (decisionEvents env) = true := by
    unfold decisionEvents
    split
    · rfl
    · split
      · rfl
      · exact hscan _
  unfold verifyEvmEvents loopEvents
  simp only [chains_to_check, List.map_cons, List.map_nil, List.flatten_cons,
    List.flatten_nil, List.append_nil, List.append_assoc]
  rw [seqPaired_probe_append, seqPaired_ite_probe_append,
    seqPaired_probe_append, seqPaired_ite_probe_append,
    seqPaired_probe_append, seqPaired_ite_probe_append]
  exact hdec

end OneEscrow
